import Mathlib

/-!
# Verification of the facial-verification gating state machine

Shallow embedding of the facial-recognition access gate of the job-board
application, translated from:

* `src/components/auth/facial-protection-wrapper.tsx` (the variant carrying
  the `IS_DEEPFACE_REQUIRED` feature flag) — the `FacialProtectionWrapper`
  component: its render body, its `useEffect` hooks (redirect-flag reset,
  navigation lockout, redirect), and the `UNRESTRICTED_ROUTES` allow-list;
* `src/lib/contexts/auth-context.tsx` — `AuthProvider`: the auth-subscription
  callback, the derived predicates `needsFacialSetup` / `needsLoginScan`,
  `refreshFacialStatus`, `setLoginScanFace` and `signOut`;
* `src/hooks/useFacialSetup.ts` — the fail-closed handling of a failed
  `hasFacialData` lookup;
* `src/components/auth/facial-recognition.tsx` — `captureAndProcessFace`
  in `verify` mode (the capture-widget state machine);
* `src/components/auth/login-form-with-facial.tsx` and
  `src/app/login-facial/page.tsx` — the two `handleFacialVerification`
  handlers reacting to a verification match / mismatch;
* `src/app/setup-facial/page.tsx` — `handleFacialComplete` after enrollment.

React semantics used by the embedding: within one mount, `useRef` cells
persist across re-renders; a `useEffect` body runs after the first render and
after any render whose dependency array differs from the previous one, and the
cleanup returned by the previous run (if any) executes before the re-run and
on unmount.  A render cycle is: component body first, then the effects in
declaration order.
-/

/-- The four decided gate states of the access-control state machine
(the transient LOADING phase is modelled by the `isLoading` field of
`AuthState` and by the early-return guards of the render model). -/
inductive GateState
  | UNAUTHENTICATED
  | NEEDS_ENROLLMENT
  | NEEDS_VERIFICATION
  | CLEAR
  deriving DecidableEq, Repr

/-- The list `UNRESTRICTED_ROUTES` from `facial-protection-wrapper.tsx`: routes that
do not require any protection, matched by path-prefix. -/
def UNRESTRICTED_ROUTES : List String :=
  ["/login", "/signup", "/setup-facial", "/login-facial", "/terms", "/privacy", "/cookies"]

/-- Character-list prefix test: embedding of JavaScript
`String.prototype.startsWith` on the underlying character sequences. -/
def charsStartWith : List Char → List Char → Bool
  | _, [] => true
  | [], _ :: _ => false
  | c :: cs, p :: ps => c == p && charsStartWith cs ps

/-- Embedding of `pathname.startsWith(route)` on Lean strings. -/
def pathStartsWith (pathname route : String) : Bool :=
  charsStartWith pathname.data route.data

/-- Embedding of `UNRESTRICTED_ROUTES.some((route) => pathname.startsWith(route))`. -/
def isUnrestrictedRoute (pathname : String) : Bool :=
  UNRESTRICTED_ROUTES.any (fun route => pathStartsWith pathname route)

/-- The auth-context state visible to the gate (from `AuthProvider` in
`auth-context.tsx`): Firebase user (modelled by its uid), the
`hasFacialSetup` tri-state (`boolean | null`), the per-session
`loginScanFace` flag, and the `isLoading` flag. -/
structure AuthState where
  user : Option String
  hasFacialSetup : Option Bool
  loginScanFace : Bool
  isLoading : Bool
  deriving DecidableEq, Repr

/-- From `const needsFacialSetup = user !== null && hasFacialSetup !== true;`
(`auth-context.tsx`). -/
def needsFacialSetup (s : AuthState) : Bool :=
  s.user.isSome && !(s.hasFacialSetup == some true)

/-- From `const needsLoginScan = user !== null && hasFacialSetup === true &&
!loginScanFace;` (`auth-context.tsx`). -/
def needsLoginScan (s : AuthState) : Bool :=
  s.user.isSome && (s.hasFacialSetup == some true) && !s.loginScanFace

/-- The gate's decision, translated from the branch order of the redirect
effect of `FacialProtectionWrapper` (the chain: unrestricted route → allow;
`!user` → `/login`; `needsFacialSetup` → `/setup-facial`; `needsLoginScan`
→ `/login-facial`; otherwise no redirect), with redirect targets read as the
corresponding gate states.  Evaluated once loading is finished. -/
def gateDecision (s : AuthState) (pathname : String) : GateState :=
  if isUnrestrictedRoute pathname then GateState.CLEAR
  else if s.user.isNone then GateState.UNAUTHENTICATED
  else if needsFacialSetup s then GateState.NEEDS_ENROLLMENT
  else if needsLoginScan s then GateState.NEEDS_VERIFICATION
  else GateState.CLEAR

/-- Result shape of the `hasFacialData` server action
(`{success: boolean, data?: boolean, error?: string}`); `data` is optional,
hence `Option Bool`. -/
structure FacialResult where
  success : Bool
  data : Option Bool
  deriving DecidableEq, Repr

/-- How both `AuthProvider` and `useFacialSetup` fold a `hasFacialData`
result into the `hasFacialSetup` boolean:
`facialResult.success ? (facialResult.data || false) : false`. -/
def applyFacialResult (r : FacialResult) : Bool :=
  if r.success then r.data.getD false else false

/-- The transition function exactly as the specification words it
(spec §4.1), used as the comparison target for claim C1:
unrestricted route → CLEAR; no identity → UNAUTHENTICATED; enrollment
absent → NEEDS_ENROLLMENT; session not verified → NEEDS_VERIFICATION;
otherwise CLEAR. -/
def specGateState (identity enrollmentExists sessionVerified : Bool)
    (route : String) : GateState :=
  if isUnrestrictedRoute route then GateState.CLEAR
  else if !identity then GateState.UNAUTHENTICATED
  else if !enrollmentExists then GateState.NEEDS_ENROLLMENT
  else if !sessionVerified then GateState.NEEDS_VERIFICATION
  else GateState.CLEAR

/-- C1: for every input tuple with loading finished, the code's gate decision
agrees with the spec's priority chain and yields exactly one of the four
states; purity holds by construction (`gateDecision` is a function). -/
theorem C1_gate_matches_spec (uid : String) (identity enroll sv : Bool) (route : String) :
    let s : AuthState := ⟨if identity then some uid else none, some enroll, sv, false⟩
    gateDecision s route = specGateState identity enroll sv route ∧
      (gateDecision s route = GateState.UNAUTHENTICATED ∨
       gateDecision s route = GateState.NEEDS_ENROLLMENT ∨
       gateDecision s route = GateState.NEEDS_VERIFICATION ∨
       gateDecision s route = GateState.CLEAR) := by
  cases identity <;> cases enroll <;> cases sv <;>
    simp [gateDecision, specGateState, needsFacialSetup, needsLoginScan] <;>
    by_cases h : isUnrestrictedRoute route = true <;> simp [h]

/-- C10: the derived predicates `needsFacialSetup` and `needsLoginScan` are
never both true, and both are false whenever no user is signed in, for every
combination of `hasFacialSetup` and `loginScanFace`. -/
theorem C10_blocking_predicates_exclusive (u : Option String) (hs : Option Bool)
    (lsf ld : Bool) :
    (!(needsFacialSetup ⟨u, hs, lsf, ld⟩ && needsLoginScan ⟨u, hs, lsf, ld⟩)) = true ∧
    needsFacialSetup ⟨none, hs, lsf, ld⟩ = false ∧
    needsLoginScan ⟨none, hs, lsf, ld⟩ = false := by
  refine ⟨?_, by simp [needsFacialSetup], by simp [needsLoginScan]⟩
  cases u <;> cases lsf <;> rcases hs with _ | _ | _ <;>
    simp [needsFacialSetup, needsLoginScan]

/-! ## Auth-subscription event machine

The `AuthProvider` subscribes to auth changes.  Its callback first applies a
synchronous prefix (`setUser`, `setLoginScanFaceState(false)`, and — for a
sign-out — clearing profile and facial state), and then, for a signed-in
user, awaits the `hasFacialData` lookup whose resolution later applies
`setHasFacialSetup`.  The resolution carries no check that the uid it was
started for is still the current user.  `setLoginScanFace(true)` is reached
only from the login-facial page's `handleFacialVerification` on a successful
match, and `signOut` clears everything. -/

/-- One event applied to the auth-context state:
* `authEvent u` — the synchronous prefix of the subscription callback for an
  identity change to `u`;
* `facialResponse uid res` — the later resolution of the `hasFacialData`
  lookup that was started for `uid` (applied by the callback's continuation);
* `verifyOutcome m` — the login-facial page's `handleFacialVerification`
  receiving match result `m` and calling `setLoginScanFace(true)` iff `m`;
* `signOutEvent` — the context's `signOut` function. -/
inductive AuthAction
  | authEvent (u : Option String)
  | facialResponse (uid : String) (res : FacialResult)
  | verifyOutcome (isMatch : Bool)
  | signOutEvent
  deriving DecidableEq, Repr

/-- State transition of the auth context for one event, translated from
`auth-context.tsx`.  Note that `facialResponse` applies its result
unconditionally: the code keeps no generation counter and never compares the
response's uid with the current user. -/
def applyAuthAction (s : AuthState) : AuthAction → AuthState
  | AuthAction.authEvent (some uid) =>
      { s with user := some uid, loginScanFace := false }
  | AuthAction.authEvent none =>
      { user := none, hasFacialSetup := none, loginScanFace := false, isLoading := false }
  | AuthAction.facialResponse _ res =>
      { s with hasFacialSetup := some (applyFacialResult res), isLoading := false }
  | AuthAction.verifyOutcome m =>
      if m then { s with loginScanFace := true } else s
  | AuthAction.signOutEvent =>
      { s with user := none, hasFacialSetup := none, loginScanFace := false }

/-- Fold a list of events over the auth state. -/
def runAuth (s : AuthState) : List AuthAction → AuthState
  | [] => s
  | a :: rest => runAuth (applyAuthAction s a) rest

/-- The provider's initial state: no user, `hasFacialSetup = null`,
`loginScanFace = false`, loading. -/
def initialAuthState : AuthState :=
  ⟨none, none, false, true⟩

/-- The value of `loginScanFace` after one event, as claim C9 words it:
`false` on every identity event and on sign-out, raised to `true` only by a
successful verification match, otherwise unchanged. -/
def lsfSpec (s : AuthState) : AuthAction → Bool
  | AuthAction.authEvent _ => false
  | AuthAction.facialResponse _ _ => s.loginScanFace
  | AuthAction.verifyOutcome m => s.loginScanFace || m
  | AuthAction.signOutEvent => false

/-- C9: for every auth-context state and every event, the per-session
`loginScanFace` flag evolves exactly as the claim states: it is reset to
`false` on every new identity event (including re-login) and on sign-out,
and it becomes `true` only through a successful verification match
(`isMatch = true`); moreover it starts out `false`. -/
theorem C9_loginScanFace_lifecycle (s : AuthState) (a : AuthAction) :
    (applyAuthAction s a).loginScanFace = lsfSpec s a ∧
      initialAuthState.loginScanFace = false := by
  refine ⟨?_, rfl⟩
  cases a with
  | authEvent u => cases u <;> simp [applyAuthAction, lsfSpec]
  | facialResponse uid res => simp [applyAuthAction, lsfSpec]
  | verifyOutcome m => cases m <;> simp [applyAuthAction, lsfSpec]
  | signOutEvent => simp [applyAuthAction, lsfSpec]

/-- C3: if the enrollment-existence lookup fails (`success = false`), both
`AuthProvider` and `useFacialSetup` record `hasFacialSetup = false`
(`applyFacialResult` is `false`), so for a signed-in user on any restricted
route the gate resolves to `NEEDS_ENROLLMENT` and never to `CLEAR`. -/
theorem C3_lookup_failure_fails_closed (res : FacialResult) (uid route : String)
    (lsf : Bool) (hres : res.success = false)
    (hroute : isUnrestrictedRoute route = false) :
    applyFacialResult res = false ∧
    gateDecision ⟨some uid, some (applyFacialResult res), lsf, false⟩ route =
      GateState.NEEDS_ENROLLMENT ∧
    gateDecision ⟨some uid, some (applyFacialResult res), lsf, false⟩ route ≠
      GateState.CLEAR := by
  have hfalse : applyFacialResult res = false := by
    simp [applyFacialResult, hres]
  refine ⟨hfalse, ?_, ?_⟩ <;>
    simp [hfalse, gateDecision, hroute, needsFacialSetup, needsLoginScan]

/-- Witness for C3 at a concrete failed lookup on route `/jobs`. -/
theorem C3_lookup_failure_fails_closed_witness :
    applyFacialResult ⟨false, none⟩ = false ∧
    gateDecision ⟨some "alice", some (applyFacialResult ⟨false, none⟩), false, false⟩
        "/jobs" = GateState.NEEDS_ENROLLMENT ∧
    gateDecision ⟨some "alice", some (applyFacialResult ⟨false, none⟩), false, false⟩
        "/jobs" ≠ GateState.CLEAR :=
  C3_lookup_failure_fails_closed ⟨false, none⟩ "alice" "/jobs" false (by decide)
    (by decide)

/-! ## Render model of `FacialProtectionWrapper`

The component (the `IS_DEEPFACE_REQUIRED` variant) consists of a render body
(two "IMMEDIATE BLOCKING" checks that may call `router.replace` during
render) and, in declaration order, the effects: the redirect-flag reset
effect (deps `[pathname]`), the `facial_completed` URL-cleanup effect (a
timer that neither redirects nor installs navigation listeners, hence not
modelled), the navigation-lockout effect (deps `[user, needsFacialSetup,
needsLoginScan, pathname, isLoading, router]`) and the redirect effect.
`hasRedirected` and `navigationBlocked` are `useRef` cells.  One render
cycle runs the body first, then each effect whose dependency array changed
(always on the first render), running the previous cleanup beforehand; only
the lockout effect registers a cleanup, and only in its install branch. -/

/-- Per-render inputs of the wrapper: the auth context it reads, the current
pathname, and the `facial_completed` query marker. -/
structure WrapperInput where
  auth : AuthState
  pathname : String
  justCompletedFacial : Bool
  deriving DecidableEq, Repr

/-- Value of the lockout effect's dependency array:
`[user, needsFacialSetup, needsLoginScan, pathname, isLoading]`
(the `router` entry is stable and omitted). -/
structure LockoutDeps where
  user : Option String
  nfs : Bool
  nls : Bool
  pathname : String
  isLoading : Bool
  deriving DecidableEq, Repr

def lockoutDeps (i : WrapperInput) : LockoutDeps :=
  ⟨i.auth.user, needsFacialSetup i.auth, needsLoginScan i.auth, i.pathname,
   i.auth.isLoading⟩

/-- Value of the redirect effect's dependency array: `[user, hasFacialSetup,
loginScanFace, isLoading, needsFacialSetup, needsLoginScan, pathname]`. -/
structure RedirectDeps where
  user : Option String
  hasFacialSetup : Option Bool
  loginScanFace : Bool
  isLoading : Bool
  nfs : Bool
  nls : Bool
  pathname : String
  deriving DecidableEq, Repr

def redirectDeps (i : WrapperInput) : RedirectDeps :=
  ⟨i.auth.user, i.auth.hasFacialSetup, i.auth.loginScanFace, i.auth.isLoading,
   needsFacialSetup i.auth, needsLoginScan i.auth, i.pathname⟩

/-- Mutable per-mount state: the two `useRef` cells, whether the lockout
effect's cleanup is currently registered, the number of installed `popstate`
and `beforeunload` listeners, and the last dependency values each effect ran
with (`none` before the first render). -/
structure MountState where
  hasRedirected : Bool
  navigationBlocked : Bool
  listenersInstalled : Bool
  popstateListeners : Nat
  beforeunloadListeners : Nat
  prevReset : Option String
  prevLockout : Option LockoutDeps
  prevRedirect : Option RedirectDeps
  deriving DecidableEq, Repr

/-- A freshly mounted wrapper: refs start `false`, no listeners, no effect
has run yet. -/
def initialMountState : MountState :=
  ⟨false, false, false, 0, 0, none, none, none⟩

/-- The two IMMEDIATE BLOCKING checks of the render body.  In the source
each check is `if (outer condition) { if (!hasRedirected.current)
{ hasRedirected.current = true; router.replace(target); } }`; the two
sequential checks are flattened into one if-chain, which is equivalent
because the first check, when it fires, sets `hasRedirected` and thereby
disables the second. -/
def runWrapperBody (flag : Bool) (i : WrapperInput) (m : MountState) :
    MountState × List String :=
  let unres := isUnrestrictedRoute i.pathname
  if !i.auth.isLoading && flag && i.auth.user.isSome && needsFacialSetup i.auth
      && !unres && !i.justCompletedFacial && !m.hasRedirected then
    ({ m with hasRedirected := true }, ["/setup-facial"])
  else if !i.auth.isLoading && flag && i.auth.user.isSome
      && needsLoginScan i.auth && !unres && !m.hasRedirected then
    ({ m with hasRedirected := true }, ["/login-facial"])
  else (m, [])

/-- The reset effect `useEffect(() => { hasRedirected.current = false; },
[pathname])`: runs on the first render and whenever `pathname` changed. -/
def runResetEffect (i : WrapperInput) (m : MountState) : MountState :=
  if m.prevReset = some i.pathname then m
  else { m with hasRedirected := false, prevReset := some i.pathname }

/-- Cleanup registered by the lockout effect's install branch: remove both
listeners and clear `navigationBlocked`. -/
def lockoutCleanup (m : MountState) : MountState :=
  if m.listenersInstalled then
    { m with popstateListeners := m.popstateListeners - 1,
             beforeunloadListeners := m.beforeunloadListeners - 1,
             navigationBlocked := false,
             listenersInstalled := false }
  else m

/-- The navigation-lockout effect.  When its dependencies changed it first
runs the previous cleanup, then: early-returns while loading or when the
feature flag is off; installs one `popstate` and one `beforeunload` listener
(setting `navigationBlocked`) when the user is on a restricted route and
needs facial setup or a login scan; otherwise clears `navigationBlocked`. -/
def runLockoutEffect (flag : Bool) (i : WrapperInput) (m : MountState) :
    MountState :=
  if m.prevLockout = some (lockoutDeps i) then m
  else
    let m1 := lockoutCleanup m
    let m2 := { m1 with prevLockout := some (lockoutDeps i) }
    if i.auth.isLoading then m2
    else if !flag then m2
    else if !(isUnrestrictedRoute i.pathname) && i.auth.user.isSome
        && (needsFacialSetup i.auth || needsLoginScan i.auth)
        && !m2.navigationBlocked then
      { m2 with navigationBlocked := true, listenersInstalled := true,
                popstateListeners := m2.popstateListeners + 1,
                beforeunloadListeners := m2.beforeunloadListeners + 1 }
    else { m2 with navigationBlocked := false }

/-- The redirect effect.  When its dependencies changed: early-returns while
loading, when the flag is off, when already redirected for this path, or on
an unrestricted route; otherwise issues exactly one `router.replace` along
the `UNAUTHENTICATED` / `NEEDS_ENROLLMENT` / `NEEDS_VERIFICATION` chain,
setting `hasRedirected`. -/
def runRedirectEffect (flag : Bool) (i : WrapperInput) (m : MountState) :
    MountState × List String :=
  if m.prevRedirect = some (redirectDeps i) then (m, [])
  else
    let m1 := { m with prevRedirect := some (redirectDeps i) }
    if i.auth.isLoading then (m1, [])
    else if !flag then (m1, [])
    else if m1.hasRedirected then (m1, [])
    else if isUnrestrictedRoute i.pathname then (m1, [])
    else if i.auth.user.isNone then
      ({ m1 with hasRedirected := true }, ["/login"])
    else if needsFacialSetup i.auth then
      ({ m1 with hasRedirected := true }, ["/setup-facial"])
    else if needsLoginScan i.auth then
      ({ m1 with hasRedirected := true }, ["/login-facial"])
    else (m1, [])

/-- One full render cycle: body, then the effects in declaration order,
collecting every `router.replace` target in call order. -/
def renderCycle (flag : Bool) (i : WrapperInput) (m : MountState) :
    MountState × List String :=
  let bodyOut := runWrapperBody flag i m
  let m2 := runResetEffect i bodyOut.1
  let m3 := runLockoutEffect flag i m2
  let effOut := runRedirectEffect flag i m3
  (effOut.1, bodyOut.2 ++ effOut.2)

/-- A sequence of render cycles over a list of per-render inputs. -/
def runRenders (flag : Bool) : MountState → List WrapperInput → MountState × List String
  | m, [] => (m, [])
  | m, i :: rest =>
    let step := renderCycle flag i m
    let restOut := runRenders flag step.1 rest
    (restOut.1, step.2 ++ restOut.2)

/-- Unmounting runs the registered cleanups; only the lockout effect ever
registers one. -/
def unmountWrapper (m : MountState) : MountState :=
  lockoutCleanup m

lemma body_preserves_lockout (flag : Bool) (i : WrapperInput) (m : MountState) :
    ((runWrapperBody flag i m).1).popstateListeners = m.popstateListeners ∧
    ((runWrapperBody flag i m).1).beforeunloadListeners = m.beforeunloadListeners ∧
    ((runWrapperBody flag i m).1).listenersInstalled = m.listenersInstalled ∧
    ((runWrapperBody flag i m).1).navigationBlocked = m.navigationBlocked ∧
    ((runWrapperBody flag i m).1).prevLockout = m.prevLockout := by
  unfold runWrapperBody
  dsimp only
  split_ifs <;> simp

lemma reset_preserves_lockout (i : WrapperInput) (m : MountState) :
    (runResetEffect i m).popstateListeners = m.popstateListeners ∧
    (runResetEffect i m).beforeunloadListeners = m.beforeunloadListeners ∧
    (runResetEffect i m).listenersInstalled = m.listenersInstalled ∧
    (runResetEffect i m).navigationBlocked = m.navigationBlocked ∧
    (runResetEffect i m).prevLockout = m.prevLockout := by
  unfold runResetEffect
  split_ifs <;> simp

lemma redirect_preserves_lockout (flag : Bool) (i : WrapperInput) (m : MountState) :
    ((runRedirectEffect flag i m).1).popstateListeners = m.popstateListeners ∧
    ((runRedirectEffect flag i m).1).beforeunloadListeners = m.beforeunloadListeners ∧
    ((runRedirectEffect flag i m).1).listenersInstalled = m.listenersInstalled ∧
    ((runRedirectEffect flag i m).1).navigationBlocked = m.navigationBlocked ∧
    ((runRedirectEffect flag i m).1).prevLockout = m.prevLockout := by
  unfold runRedirectEffect
  dsimp only
  split_ifs <;> simp

/-- The lockout effect's install condition as a function of the effect's
dependency values (feature flag fixed separately). -/
def lockoutCondOfDeps (flag : Bool) (d : LockoutDeps) : Bool :=
  !d.isLoading && flag && !(isUnrestrictedRoute d.pathname) && d.user.isSome
    && (d.nfs || d.nls)

/-- Whether a render with input `i` (and feature flag `flag`) makes the
lockout effect take its install branch when `navigationBlocked` is clear. -/
def lockoutInstallCond (flag : Bool) (i : WrapperInput) : Bool :=
  lockoutCondOfDeps flag (lockoutDeps i)

/-- The mount state of an active lockout: exactly one listener of each kind,
cleanup registered, `navigationBlocked` set, lockout deps recorded as `d`. -/
def blockedMount (d : LockoutDeps) (m : MountState) : Prop :=
  m.popstateListeners = 1 ∧ m.beforeunloadListeners = 1 ∧
  m.listenersInstalled = true ∧ m.navigationBlocked = true ∧
  m.prevLockout = some d

lemma lockout_effect_entry (i : WrapperInput) (m : MountState)
    (hcond : lockoutInstallCond true i = true)
    (hinst : m.listenersInstalled = false)
    (hnav : m.navigationBlocked = false)
    (hpop : m.popstateListeners = 0)
    (hbef : m.beforeunloadListeners = 0)
    (hprev : m.prevLockout ≠ some (lockoutDeps i)) :
    blockedMount (lockoutDeps i) (runLockoutEffect true i m) := by
  unfold lockoutInstallCond lockoutCondOfDeps lockoutDeps at hcond
  simp only [Bool.and_eq_true, Bool.not_eq_true'] at hcond
  obtain ⟨⟨⟨⟨hload, -⟩, hunres⟩, huser⟩, hblock⟩ := hcond
  unfold runLockoutEffect
  rw [if_neg hprev]
  simp [lockoutCleanup, hinst, hnav, hpop, hbef, hload, hunres, huser, hblock,
    blockedMount, lockoutDeps]

lemma lockout_effect_skip (flag : Bool) (i : WrapperInput) (m : MountState)
    (h : m.prevLockout = some (lockoutDeps i)) :
    runLockoutEffect flag i m = m := by
  simp [runLockoutEffect, h]

lemma lockout_effect_leave (j : WrapperInput) (d : LockoutDeps) (m : MountState)
    (hd : lockoutCondOfDeps true d = true)
    (hj : lockoutInstallCond true j = false)
    (hm : blockedMount d m) :
    (runLockoutEffect true j m).popstateListeners = 0 ∧
    (runLockoutEffect true j m).beforeunloadListeners = 0 ∧
    (runLockoutEffect true j m).listenersInstalled = false ∧
    (runLockoutEffect true j m).navigationBlocked = false ∧
    (runLockoutEffect true j m).prevLockout = some (lockoutDeps j) := by
  obtain ⟨hp, hb, hi, hn, hprev⟩ := hm
  have hne : ¬(m.prevLockout = some (lockoutDeps j)) := by
    rw [hprev]
    intro hc
    have hdj : d = lockoutDeps j := Option.some.inj hc
    rw [lockoutInstallCond, ← hdj, hd] at hj
    exact absurd hj (by simp)
  unfold runLockoutEffect
  rw [if_neg hne]
  unfold lockoutInstallCond lockoutCondOfDeps lockoutDeps at hj
  by_cases hl : j.auth.isLoading = true
  · simp [lockoutCleanup, hi, hp, hb, hl]
  · simp only [Bool.not_eq_true] at hl
    simp only [hl, Bool.not_false, Bool.true_and, Bool.and_true] at hj
    simp only [Bool.and_eq_false_iff] at hj
    rcases hj with (hj | hj) | hj <;>
      simp [lockoutCleanup, hi, hp, hb, hl, hj]

lemma renderCycle_fst (flag : Bool) (i : WrapperInput) (m : MountState) :
    (renderCycle flag i m).1 =
      (runRedirectEffect flag i
        (runLockoutEffect flag i
          (runResetEffect i (runWrapperBody flag i m).1))).1 := rfl

lemma cycle_entry (i : WrapperInput) (m : MountState)
    (hcond : lockoutInstallCond true i = true)
    (hinst : m.listenersInstalled = false)
    (hnav : m.navigationBlocked = false)
    (hpop : m.popstateListeners = 0)
    (hbef : m.beforeunloadListeners = 0)
    (hprev : m.prevLockout ≠ some (lockoutDeps i)) :
    blockedMount (lockoutDeps i) ((renderCycle true i m).1) := by
  have hb := body_preserves_lockout true i m
  have hr := reset_preserves_lockout i (runWrapperBody true i m).1
  set m2 := runResetEffect i (runWrapperBody true i m).1 with hm2
  have hentry := lockout_effect_entry i m2 hcond
    (hr.2.2.1.trans (hb.2.2.1.trans hinst))
    (hr.2.2.2.1.trans (hb.2.2.2.1.trans hnav))
    (hr.1.trans (hb.1.trans hpop))
    (hr.2.1.trans (hb.2.1.trans hbef))
    (by rw [hr.2.2.2.2, hb.2.2.2.2]; exact hprev)
  have hd := redirect_preserves_lockout true i (runLockoutEffect true i m2)
  rw [renderCycle_fst]
  obtain ⟨e1, e2, e3, e4, e5⟩ := hentry
  exact ⟨hd.1.trans e1, hd.2.1.trans e2, hd.2.2.1.trans e3,
    hd.2.2.2.1.trans e4, hd.2.2.2.2.trans e5⟩

lemma cycle_persist (i : WrapperInput) (m : MountState)
    (hm : blockedMount (lockoutDeps i) m) :
    blockedMount (lockoutDeps i) ((renderCycle true i m).1) := by
  obtain ⟨hp, hb, hi, hn, hprev⟩ := hm
  have h1 := body_preserves_lockout true i m
  have h2 := reset_preserves_lockout i (runWrapperBody true i m).1
  set m2 := runResetEffect i (runWrapperBody true i m).1 with hm2
  have hskip : runLockoutEffect true i m2 = m2 :=
    lockout_effect_skip true i m2 (by rw [h2.2.2.2.2, h1.2.2.2.2]; exact hprev)
  have hd := redirect_preserves_lockout true i (runLockoutEffect true i m2)
  rw [renderCycle_fst]
  refine ⟨?_, ?_, ?_, ?_, ?_⟩
  · exact hd.1.trans (by rw [hskip]; exact h2.1.trans (h1.1.trans hp))
  · exact hd.2.1.trans (by rw [hskip]; exact h2.2.1.trans (h1.2.1.trans hb))
  · exact hd.2.2.1.trans (by rw [hskip]; exact h2.2.2.1.trans (h1.2.2.1.trans hi))
  · exact hd.2.2.2.1.trans (by rw [hskip]; exact h2.2.2.2.1.trans (h1.2.2.2.1.trans hn))
  · exact hd.2.2.2.2.trans (by rw [hskip]; exact h2.2.2.2.2.trans (h1.2.2.2.2.trans hprev))

lemma runRenders_persist (i : WrapperInput) :
    ∀ (k : Nat) (m : MountState), blockedMount (lockoutDeps i) m →
      blockedMount (lockoutDeps i) ((runRenders true m (List.replicate k i)).1)
  | 0, m, hm => hm
  | k + 1, m, hm => by
    simp only [List.replicate_succ, runRenders]
    exact runRenders_persist i k _ (cycle_persist i m hm)

lemma cycle_leave (j : WrapperInput) (d : LockoutDeps) (m : MountState)
    (hd : lockoutCondOfDeps true d = true)
    (hj : lockoutInstallCond true j = false)
    (hm : blockedMount d m) :
    (renderCycle true j m).1.popstateListeners = 0 ∧
    (renderCycle true j m).1.beforeunloadListeners = 0 ∧
    (renderCycle true j m).1.listenersInstalled = false ∧
    (renderCycle true j m).1.navigationBlocked = false ∧
    (renderCycle true j m).1.prevLockout = some (lockoutDeps j) := by
  obtain ⟨hp, hb, hi, hn, hprev⟩ := hm
  have h1 := body_preserves_lockout true j m
  have h2 := reset_preserves_lockout j (runWrapperBody true j m).1
  set m2 := runResetEffect j (runWrapperBody true j m).1 with hm2
  have hm2block : blockedMount d m2 :=
    ⟨h2.1.trans (h1.1.trans hp), h2.2.1.trans (h1.2.1.trans hb),
     h2.2.2.1.trans (h1.2.2.1.trans hi), h2.2.2.2.1.trans (h1.2.2.2.1.trans hn),
     h2.2.2.2.2.trans (h1.2.2.2.2.trans hprev)⟩
  have hleave := lockout_effect_leave j d m2 hd hj hm2block
  have hdp := redirect_preserves_lockout true j (runLockoutEffect true j m2)
  rw [renderCycle_fst]
  exact ⟨hdp.1.trans hleave.1, hdp.2.1.trans hleave.2.1,
    hdp.2.2.1.trans hleave.2.2.1, hdp.2.2.2.1.trans hleave.2.2.2.1,
    hdp.2.2.2.2.trans hleave.2.2.2.2⟩

lemma lockoutDeps_ne_of_cond (i j : WrapperInput)
    (hi : lockoutInstallCond true i = true)
    (hj : lockoutInstallCond true j = false) :
    lockoutDeps j ≠ lockoutDeps i := by
  intro h
  rw [lockoutInstallCond, h] at hj
  rw [lockoutInstallCond] at hi
  rw [hi] at hj
  exact absurd hj (by simp)

/-- C6: entering a blocking state on a restricted route (any input `i` whose
lockout condition holds) installs exactly one `popstate` and one
`beforeunload` listener, and arbitrarily many further renders with that state
add none; a render leaving the blocking state (input `j` whose condition
fails) removes both; re-entering installs exactly one pair again; and
unmounting from the blocking state removes both. -/
theorem C6_lockout_listener_lifecycle (i j : WrapperInput) (n : Nat)
    (hi : lockoutInstallCond true i = true)
    (hj : lockoutInstallCond true j = false) :
    let mB := (runRenders true initialMountState (List.replicate (n + 1) i)).1
    let mJ := (renderCycle true j mB).1
    (mB.popstateListeners = 1 ∧ mB.beforeunloadListeners = 1) ∧
    (mJ.popstateListeners = 0 ∧ mJ.beforeunloadListeners = 0) ∧
    ((renderCycle true i mJ).1.popstateListeners = 1 ∧
     (renderCycle true i mJ).1.beforeunloadListeners = 1) ∧
    ((unmountWrapper mB).popstateListeners = 0 ∧
     (unmountWrapper mB).beforeunloadListeners = 0) := by
  intro mB mJ
  have hentry : blockedMount (lockoutDeps i) ((renderCycle true i initialMountState).1) :=
    cycle_entry i initialMountState hi rfl rfl rfl rfl (by simp [initialMountState])
  have hB : blockedMount (lockoutDeps i) mB := by
    show blockedMount (lockoutDeps i)
      ((runRenders true initialMountState (List.replicate (n + 1) i)).1)
    simp only [List.replicate_succ, runRenders]
    exact runRenders_persist i n _ hentry
  have hcondI : lockoutCondOfDeps true (lockoutDeps i) = true := hi
  have hJ := cycle_leave j (lockoutDeps i) mB hcondI hj hB
  have hreenter : blockedMount (lockoutDeps i) ((renderCycle true i mJ).1) := by
    refine cycle_entry i mJ hi hJ.2.2.1 hJ.2.2.2.1 hJ.1 hJ.2.1 ?_
    rw [hJ.2.2.2.2]
    intro hc
    exact lockoutDeps_ne_of_cond i j hi hj (Option.some.inj hc)
  refine ⟨⟨hB.1, hB.2.1⟩, ⟨hJ.1, hJ.2.1⟩, ⟨hreenter.1, hreenter.2.1⟩, ?_, ?_⟩
  · simp [unmountWrapper, lockoutCleanup, hB.2.2.1, hB.1]
  · simp [unmountWrapper, lockoutCleanup, hB.2.2.1, hB.2.1]

/-- Witness for C6: a user needing the login scan on `/profile` (blocking),
leaving by completing the scan (`loginScanFace` becomes true). -/
theorem C6_lockout_listener_lifecycle_witness :
    lockoutInstallCond true ⟨⟨some "carol", some true, false, false⟩, "/profile", false⟩ = true ∧
    lockoutInstallCond true ⟨⟨some "carol", some true, true, false⟩, "/profile", false⟩ = false ∧
    (let mB := (runRenders true initialMountState
        (List.replicate 5 ⟨⟨some "carol", some true, false, false⟩, "/profile", false⟩)).1
     let mJ := (renderCycle true ⟨⟨some "carol", some true, true, false⟩, "/profile", false⟩ mB).1
     (mB.popstateListeners = 1 ∧ mB.beforeunloadListeners = 1) ∧
     (mJ.popstateListeners = 0 ∧ mJ.beforeunloadListeners = 0) ∧
     ((renderCycle true ⟨⟨some "carol", some true, false, false⟩, "/profile", false⟩ mJ).1.popstateListeners = 1 ∧
      (renderCycle true ⟨⟨some "carol", some true, false, false⟩, "/profile", false⟩ mJ).1.beforeunloadListeners = 1) ∧
     ((unmountWrapper mB).popstateListeners = 0 ∧
      (unmountWrapper mB).beforeunloadListeners = 0)) :=
  ⟨by decide, by decide,
   C6_lockout_listener_lifecycle
     ⟨⟨some "carol", some true, false, false⟩, "/profile", false⟩
     ⟨⟨some "carol", some true, true, false⟩, "/profile", false⟩ 4
     (by decide) (by decide)⟩

lemma body_flag_off (i : WrapperInput) (m : MountState) :
    runWrapperBody false i m = (m, []) := by
  simp [runWrapperBody]

lemma lockout_flag_off (i : WrapperInput) (m : MountState)
    (hinst : m.listenersInstalled = false) :
    (runLockoutEffect false i m).listenersInstalled = false ∧
    (runLockoutEffect false i m).popstateListeners = m.popstateListeners ∧
    (runLockoutEffect false i m).beforeunloadListeners = m.beforeunloadListeners := by
  unfold runLockoutEffect lockoutCleanup
  dsimp only
  split_ifs <;> simp_all

lemma redirect_flag_off (i : WrapperInput) (m : MountState) :
    (runRedirectEffect false i m).2 = [] := by
  unfold runRedirectEffect
  dsimp only
  split_ifs <;> simp_all

lemma flagOff_cycle (i : WrapperInput) (m : MountState)
    (hinst : m.listenersInstalled = false) :
    (renderCycle false i m).2 = [] ∧
    (renderCycle false i m).1.listenersInstalled = false ∧
    (renderCycle false i m).1.popstateListeners = m.popstateListeners ∧
    (renderCycle false i m).1.beforeunloadListeners = m.beforeunloadListeners := by
  have hres := reset_preserves_lockout i m
  set m2 := runResetEffect i m with hm2
  have hlock := lockout_flag_off i m2 (hres.2.2.1.trans hinst)
  have hred := redirect_preserves_lockout false i (runLockoutEffect false i m2)
  have hcycle : renderCycle false i m =
      ((runRedirectEffect false i (runLockoutEffect false i m2)).1,
        [] ++ (runRedirectEffect false i (runLockoutEffect false i m2)).2) := by
    unfold renderCycle
    rw [body_flag_off]
  rw [hcycle]
  refine ⟨by simp [redirect_flag_off], ?_, ?_, ?_⟩
  · exact hred.2.2.1.trans hlock.1
  · exact hred.1.trans (hlock.2.1.trans hres.1)
  · exact hred.2.1.trans (hlock.2.2.trans hres.2.1)

lemma flagOff_renders : ∀ (inputs : List WrapperInput) (m : MountState),
    m.listenersInstalled = false →
    (runRenders false m inputs).2 = [] ∧
    (runRenders false m inputs).1.listenersInstalled = false ∧
    (runRenders false m inputs).1.popstateListeners = m.popstateListeners ∧
    (runRenders false m inputs).1.beforeunloadListeners = m.beforeunloadListeners
  | [], m, h => ⟨rfl, h, rfl, rfl⟩
  | i :: rest, m, h => by
    have hc := flagOff_cycle i m h
    have ih := flagOff_renders rest (renderCycle false i m).1 hc.2.1
    simp only [runRenders]
    exact ⟨by simp [hc.1, ih.1], ih.2.1, ih.2.2.1.trans hc.2.2.1,
      ih.2.2.2.trans hc.2.2.2⟩

/-- C4: with the deployment flag `IS_DEEPFACE_REQUIRED` false, the wrapper is
a pass-through for every sequence of inputs: no `router.replace` is ever
issued and no `popstate` or `beforeunload` listener is ever installed — the
flag gates the redirect subsystem and the lockout subsystem identically. -/
theorem C4_flag_off_pass_through (inputs : List WrapperInput) :
    (runRenders false initialMountState inputs).2 = [] ∧
    (runRenders false initialMountState inputs).1.popstateListeners = 0 ∧
    (runRenders false initialMountState inputs).1.beforeunloadListeners = 0 :=
  let h := flagOff_renders inputs initialMountState rfl
  ⟨h.1, h.2.2.1, h.2.2.2⟩

/-- The claim's scenario input for C5: a signed-in user without enrollment
(`NEEDS_ENROLLMENT`) on the restricted route `/jobs`, loading finished, no
completion marker. -/
def needsEnrollmentInput : WrapperInput :=
  ⟨⟨some "alice", some false, false, false⟩, "/jobs", false⟩

/-- C5 counterexample: five consecutive renders with unchanged
`(state, route)` from a fresh mount in `NEEDS_ENROLLMENT` issue TWO redirect
calls (both to `/setup-facial`), not exactly one: the render body's immediate
check redirects once, the mount-time reset effect then clears
`hasRedirected`, and the redirect effect redirects a second time. -/
theorem C5_counterexample_two_redirects :
    (runRenders true initialMountState (List.replicate 5 needsEnrollmentInput)).2 =
      ["/setup-facial", "/setup-facial"] ∧
    (runRenders true initialMountState
      (List.replicate 5 needsEnrollmentInput)).2.length ≠ 1 := by
  decide

/-- From `needsFacialSetup s = true` the user is signed in. -/
lemma user_isSome_of_nfs (s : AuthState) (h : needsFacialSetup s = true) :
    s.user.isSome = true := by
  unfold needsFacialSetup at h
  exact (Bool.and_eq_true _ _ |>.mp h).1

/-- From `needsLoginScan s = true` the user is signed in. -/
lemma user_isSome_of_nls (s : AuthState) (h : needsLoginScan s = true) :
    s.user.isSome = true := by
  unfold needsLoginScan at h
  exact ((Bool.and_eq_true _ _ |>.mp ((Bool.and_eq_true _ _ |>.mp h).1)).1)

lemma user_isNone_false (s : AuthState) (h : s.user.isSome = true) :
    s.user.isNone = false := by
  cases hu : s.user <;> simp [hu] at h ⊢

/-- Needing enrollment excludes needing the login scan. -/
lemma nls_false_of_nfs (s : AuthState) (h : needsFacialSetup s = true) :
    needsLoginScan s = false := by
  unfold needsFacialSetup at h
  have h2 := (Bool.and_eq_true _ _ |>.mp h).2
  unfold needsLoginScan
  simp only [Bool.not_eq_true'] at h2
  simp [h2]

/-- Needing the login scan excludes needing enrollment. -/
lemma nfs_false_of_nls (s : AuthState) (h : needsLoginScan s = true) :
    needsFacialSetup s = false := by
  unfold needsLoginScan at h
  have h2 := (Bool.and_eq_true _ _ |>.mp ((Bool.and_eq_true _ _ |>.mp h).1)).2
  unfold needsFacialSetup
  simp [h2]

/-! Mount-cycle computations: from a fresh mount, one render cycle with a
fixed input is fully determined by the gate-relevant fields of that input.
Each lemma gives the explicit post-mount state and the redirect calls of the
mount cycle. -/

lemma mount_cycle_unauth (i : WrapperInput) (hload : i.auth.isLoading = false)
    (hunres : isUnrestrictedRoute i.pathname = false)
    (hu : i.auth.user = none) :
    renderCycle true i initialMountState =
      (⟨true, false, false, 0, 0, some i.pathname, some (lockoutDeps i),
        some (redirectDeps i)⟩, ["/login"]) := by
  simp [renderCycle, runWrapperBody, runResetEffect, runLockoutEffect,
    runRedirectEffect, lockoutCleanup, initialMountState, hload, hunres, hu]

lemma mount_cycle_enroll (i : WrapperInput) (hload : i.auth.isLoading = false)
    (hunres : isUnrestrictedRoute i.pathname = false)
    (hnfs : needsFacialSetup i.auth = true)
    (hjc : i.justCompletedFacial = false) :
    renderCycle true i initialMountState =
      (⟨true, true, true, 1, 1, some i.pathname, some (lockoutDeps i),
        some (redirectDeps i)⟩, ["/setup-facial", "/setup-facial"]) := by
  have hsome := user_isSome_of_nfs i.auth hnfs
  have hnone := user_isNone_false i.auth hsome
  simp [renderCycle, runWrapperBody, runResetEffect, runLockoutEffect,
    runRedirectEffect, lockoutCleanup, initialMountState, hload, hunres, hnfs,
    hjc, hsome, hnone]

lemma mount_cycle_enroll_marker (i : WrapperInput)
    (hload : i.auth.isLoading = false)
    (hunres : isUnrestrictedRoute i.pathname = false)
    (hnfs : needsFacialSetup i.auth = true)
    (hjc : i.justCompletedFacial = true) :
    renderCycle true i initialMountState =
      (⟨true, true, true, 1, 1, some i.pathname, some (lockoutDeps i),
        some (redirectDeps i)⟩, ["/setup-facial"]) := by
  have hsome := user_isSome_of_nfs i.auth hnfs
  have hnone := user_isNone_false i.auth hsome
  have hnls := nls_false_of_nfs i.auth hnfs
  simp [renderCycle, runWrapperBody, runResetEffect, runLockoutEffect,
    runRedirectEffect, lockoutCleanup, initialMountState, hload, hunres, hnfs,
    hjc, hsome, hnone, hnls]

lemma mount_cycle_verify (i : WrapperInput) (hload : i.auth.isLoading = false)
    (hunres : isUnrestrictedRoute i.pathname = false)
    (hnls : needsLoginScan i.auth = true) :
    renderCycle true i initialMountState =
      (⟨true, true, true, 1, 1, some i.pathname, some (lockoutDeps i),
        some (redirectDeps i)⟩, ["/login-facial", "/login-facial"]) := by
  have hsome := user_isSome_of_nls i.auth hnls
  have hnone := user_isNone_false i.auth hsome
  have hnfs := nfs_false_of_nls i.auth hnls
  simp [renderCycle, runWrapperBody, runResetEffect, runLockoutEffect,
    runRedirectEffect, lockoutCleanup, initialMountState, hload, hunres, hnls,
    hsome, hnone, hnfs]

lemma mount_cycle_clear (i : WrapperInput) (hload : i.auth.isLoading = false)
    (hunres : isUnrestrictedRoute i.pathname = false)
    (hsome : i.auth.user.isSome = true)
    (hnfs : needsFacialSetup i.auth = false)
    (hnls : needsLoginScan i.auth = false) :
    renderCycle true i initialMountState =
      (⟨false, false, false, 0, 0, some i.pathname, some (lockoutDeps i),
        some (redirectDeps i)⟩, []) := by
  have hnone := user_isNone_false i.auth hsome
  simp [renderCycle, runWrapperBody, runResetEffect, runLockoutEffect,
    runRedirectEffect, lockoutCleanup, initialMountState, hload, hunres, hsome,
    hnone, hnfs, hnls]

/-- After the mount has redirected (`hasRedirected = true`) and every effect
has recorded the current dependency values, a re-render with the same input
changes nothing and emits no redirect, whatever the lockout fields hold. -/
lemma steady_cycle_redirected (i : WrapperInput) (nav inst : Bool)
    (p b : Nat) :
    renderCycle true i ⟨true, nav, inst, p, b, some i.pathname,
      some (lockoutDeps i), some (redirectDeps i)⟩ =
      (⟨true, nav, inst, p, b, some i.pathname, some (lockoutDeps i),
        some (redirectDeps i)⟩, []) := by
  simp [renderCycle, runWrapperBody, runResetEffect, runLockoutEffect,
    runRedirectEffect]

/-- In the `CLEAR` state a re-render with recorded dependency values changes
nothing and emits no redirect, even with `hasRedirected` still false. -/
lemma steady_cycle_clear (i : WrapperInput)
    (hnfs : needsFacialSetup i.auth = false)
    (hnls : needsLoginScan i.auth = false) (hR nav inst : Bool) (p b : Nat) :
    renderCycle true i ⟨hR, nav, inst, p, b, some i.pathname,
      some (lockoutDeps i), some (redirectDeps i)⟩ =
      (⟨hR, nav, inst, p, b, some i.pathname, some (lockoutDeps i),
        some (redirectDeps i)⟩, []) := by
  simp [renderCycle, runWrapperBody, runResetEffect, runLockoutEffect,
    runRedirectEffect, hnfs, hnls]

/-- Re-renders at a fixed point of the render cycle emit nothing. -/
lemma runRenders_fixed (flag : Bool) (i : WrapperInput) (m : MountState)
    (hcyc : renderCycle flag i m = (m, [])) :
    ∀ k, runRenders flag m (List.replicate k i) = (m, [])
  | 0 => rfl
  | k + 1 => by
    simp only [List.replicate_succ, runRenders, hcyc,
      runRenders_fixed flag i m hcyc k, List.append_nil]

/-- C5 amended: for every unchanged `(route, state)` pair with loading
finished on a restricted route, all redirects happen during the mount cycle
and re-renders after it produce none, while the `hasRedirected` ref stays
set until the path changes.  The mount cycle issues: one redirect
(`/login`) when unauthenticated; two redirects, both `/setup-facial`, in
`NEEDS_ENROLLMENT` without the `facial_completed` marker (body immediate
check plus redirect effect, the mount-time reset effect clearing the flag
between them); one redirect (`/setup-facial`, from the redirect effect
only) in `NEEDS_ENROLLMENT` with the marker; two redirects, both
`/login-facial`, in `NEEDS_VERIFICATION`; and none in `CLEAR`. -/
theorem C5_amended_mount_redirect_counts (i : WrapperInput) (n : Nat)
    (hload : i.auth.isLoading = false)
    (hunres : isUnrestrictedRoute i.pathname = false) :
    (i.auth.user = none →
      (runRenders true initialMountState (List.replicate (n + 1) i)).2 =
        ["/login"]) ∧
    (needsFacialSetup i.auth = true → i.justCompletedFacial = false →
      (runRenders true initialMountState (List.replicate (n + 1) i)).2 =
        ["/setup-facial", "/setup-facial"]) ∧
    (needsFacialSetup i.auth = true → i.justCompletedFacial = true →
      (runRenders true initialMountState (List.replicate (n + 1) i)).2 =
        ["/setup-facial"]) ∧
    (needsLoginScan i.auth = true →
      (runRenders true initialMountState (List.replicate (n + 1) i)).2 =
        ["/login-facial", "/login-facial"]) ∧
    (i.auth.user.isSome = true → needsFacialSetup i.auth = false →
      needsLoginScan i.auth = false →
      (runRenders true initialMountState (List.replicate (n + 1) i)).2 =
        []) := by
  refine ⟨fun hu => ?_, fun hnfs hjc => ?_, fun hnfs hjc => ?_,
    fun hnls => ?_, fun hsome hnfs hnls => ?_⟩
  · simp only [List.replicate_succ, runRenders,
      mount_cycle_unauth i hload hunres hu,
      runRenders_fixed true i _ (steady_cycle_redirected i false false 0 0) n,
      List.append_nil]
  · simp only [List.replicate_succ, runRenders,
      mount_cycle_enroll i hload hunres hnfs hjc,
      runRenders_fixed true i _ (steady_cycle_redirected i true true 1 1) n,
      List.append_nil]
  · simp only [List.replicate_succ, runRenders,
      mount_cycle_enroll_marker i hload hunres hnfs hjc,
      runRenders_fixed true i _ (steady_cycle_redirected i true true 1 1) n,
      List.append_nil]
  · simp only [List.replicate_succ, runRenders,
      mount_cycle_verify i hload hunres hnls,
      runRenders_fixed true i _ (steady_cycle_redirected i true true 1 1) n,
      List.append_nil]
  · simp only [List.replicate_succ, runRenders,
      mount_cycle_clear i hload hunres hsome hnfs hnls,
      runRenders_fixed true i _
        (steady_cycle_clear i hnfs hnls false false false 0 0) n,
      List.append_nil]

/-- Witness for the amended C5: five renders on `/jobs` in each of the five
states, exercising every conjunct of the theorem at concrete inputs. -/
theorem C5_amended_mount_redirect_counts_witness :
    ((⟨⟨none, none, false, false⟩, "/jobs", false⟩ : WrapperInput).auth.isLoading
        = false ∧
      isUnrestrictedRoute "/jobs" = false) ∧
    (runRenders true initialMountState
      (List.replicate 5 ⟨⟨none, none, false, false⟩, "/jobs", false⟩)).2 =
      ["/login"] ∧
    (runRenders true initialMountState
      (List.replicate 5 ⟨⟨some "alice", some false, false, false⟩, "/jobs",
        false⟩)).2 = ["/setup-facial", "/setup-facial"] ∧
    (runRenders true initialMountState
      (List.replicate 5 ⟨⟨some "alice", some false, false, false⟩, "/jobs",
        true⟩)).2 = ["/setup-facial"] ∧
    (runRenders true initialMountState
      (List.replicate 5 ⟨⟨some "alice", some true, false, false⟩, "/jobs",
        false⟩)).2 = ["/login-facial", "/login-facial"] ∧
    (runRenders true initialMountState
      (List.replicate 5 ⟨⟨some "alice", some true, true, false⟩, "/jobs",
        false⟩)).2 = [] :=
  ⟨⟨rfl, by decide⟩,
   (C5_amended_mount_redirect_counts ⟨⟨none, none, false, false⟩, "/jobs",
      false⟩ 4 rfl (by decide)).1 rfl,
   (C5_amended_mount_redirect_counts ⟨⟨some "alice", some false, false, false⟩,
      "/jobs", false⟩ 4 rfl (by decide)).2.1 (by decide) rfl,
   (C5_amended_mount_redirect_counts ⟨⟨some "alice", some false, false, false⟩,
      "/jobs", true⟩ 4 rfl (by decide)).2.2.1 (by decide) rfl,
   (C5_amended_mount_redirect_counts ⟨⟨some "alice", some true, false, false⟩,
      "/jobs", false⟩ 4 rfl (by decide)).2.2.2.1 (by decide),
   (C5_amended_mount_redirect_counts ⟨⟨some "alice", some true, true, false⟩,
      "/jobs", false⟩ 4 rfl (by decide)).2.2.2.2 (by decide) (by decide)
      (by decide)⟩

/-! ## Capture flow and the verification handlers -/

/-- Result of the remote `detectFaceDeepFace` call: `success` plus the
optional face embedding (content opaque to the gate). -/
structure DetectResult where
  success : Bool
  data : Option (List Int)
  deriving DecidableEq, Repr

/-- Payload of a successful `verifyFacesDeepFace` call. -/
structure VerifyData where
  isMatch : Bool
  deriving DecidableEq, Repr

/-- Result of the remote `verifyFacesDeepFace` call. -/
structure VerifyResult where
  success : Bool
  data : Option VerifyData
  deriving DecidableEq, Repr

/-- The capture widget's `step` state in `FacialRecognition`. -/
inductive CaptureStep
  | initializing
  | ready
  | scanning
  | processing
  deriving DecidableEq, Repr

/-- Outcome of `captureAndProcessFace` in `verify` mode (from
`facial-recognition.tsx`), given the detect and verify results: returns the
step the widget is left in and the `success` argument passed to `onComplete`
(`none` when `onComplete` is not called).  No face / failed verify call →
back to `ready` without a verdict; `isMatch` (with a missing `data` field
treated as no match) → `onComplete(null, true)`; mismatch → `setStep("ready")`
and `onComplete(null, false)`. -/
def captureVerifyStep (detect : DetectResult) (verify : VerifyResult) :
    CaptureStep × Option Bool :=
  if !detect.success || detect.data.isNone then (CaptureStep.ready, none)
  else if !verify.success then (CaptureStep.ready, none)
  else
    let m := match verify.data with
      | some d => d.isMatch
      | none => false
    if m then (CaptureStep.processing, some true)
    else (CaptureStep.ready, some false)

/-- The `currentStep` state of `LoginFormWithFacial`. -/
inductive LoginStep
  | credentials
  | facial
  | complete
  deriving DecidableEq, Repr

/-- Handler `handleFacialVerification` of `LoginFormWithFacial`
(`login-form-with-facial.tsx`), for the case where `userData` is present:
`success === true` advances to the `complete` step; `success === false`
calls `logoutUser()` — modelled as the subscription's resulting
`authEvent none` — and returns to the credentials step; an absent verdict
changes nothing. -/
def loginFormHandleVerification (s : AuthState) (step : LoginStep)
    (success : Option Bool) : AuthState × LoginStep :=
  match success with
  | some true => (s, LoginStep.complete)
  | some false =>
      (applyAuthAction s (AuthAction.authEvent none), LoginStep.credentials)
  | none => (s, step)

/-- Handler `handleFacialVerification` of the login-facial page
(`login-facial/page.tsx`): a truthy `success` sets `loginScanFace` and
schedules a redirect to `/`; otherwise it only increments the attempt
counter and surfaces an error — the user stays signed in and may retry.
Returns the auth state, the attempt counter, and the redirect target. -/
def loginFacialHandleVerification (s : AuthState) (attempts : Nat)
    (success : Option Bool) : AuthState × Nat × Option String :=
  match success with
  | some true => ({ s with loginScanFace := true }, attempts + 1, some "/")
  | _ => (s, attempts + 1, none)

/-- C2 counterexample: a session in which the remote verification call
returns `isMatch = false` through the login-facial page does NOT sign the
user out — `captureAndProcessFace` returns the capture flow to `READY` and
reports `success = false`, the page handler leaves the auth state unchanged
(user still signed in), and the gate decision afterwards is not
`UNAUTHENTICATED`. -/
theorem C2_counterexample_mismatch_allows_retry :
    captureVerifyStep ⟨true, some [0]⟩ ⟨true, some ⟨false⟩⟩ =
      (CaptureStep.ready, some false) ∧
    (loginFacialHandleVerification ⟨some "dave", some true, false, false⟩ 0
        (some false)).1 = ⟨some "dave", some true, false, false⟩ ∧
    gateDecision ⟨some "dave", some true, false, false⟩ "/jobs" ≠
      GateState.UNAUTHENTICATED := by
  decide

/-- C2 amended: a verification mismatch forces sign-out only in the
credentials-login facial step (`LoginFormWithFacial`): there `success =
false` signs the user out and every subsequent gate evaluation on a
restricted route returns `UNAUTHENTICATED`; in the login-facial
re-verification page a mismatch leaves the user signed in and the capture
flow returns to `READY` for a retry. -/
theorem C2_amended_mismatch_signout_in_login_form (s : AuthState)
    (step : LoginStep) (route : String)
    (hroute : isUnrestrictedRoute route = false) :
    ((loginFormHandleVerification s step (some false)).1).user = none ∧
    (loginFormHandleVerification s step (some false)).2 =
      LoginStep.credentials ∧
    gateDecision (loginFormHandleVerification s step (some false)).1 route =
      GateState.UNAUTHENTICATED ∧
    (loginFacialHandleVerification s 0 (some false)).1 = s ∧
    captureVerifyStep ⟨true, some [0]⟩ ⟨true, some ⟨false⟩⟩ =
      (CaptureStep.ready, some false) := by
  refine ⟨rfl, rfl, ?_, rfl, by decide⟩
  simp [loginFormHandleVerification, applyAuthAction, gateDecision, hroute]

/-- Witness for the amended C2 at a concrete signed-in session on `/jobs`. -/
theorem C2_amended_mismatch_signout_witness :
    isUnrestrictedRoute "/jobs" = false ∧
    (((loginFormHandleVerification ⟨some "erin", some true, false, false⟩
        LoginStep.facial (some false)).1).user = none ∧
      (loginFormHandleVerification ⟨some "erin", some true, false, false⟩
        LoginStep.facial (some false)).2 = LoginStep.credentials ∧
      gateDecision (loginFormHandleVerification
        ⟨some "erin", some true, false, false⟩ LoginStep.facial (some false)).1
        "/jobs" = GateState.UNAUTHENTICATED ∧
      (loginFacialHandleVerification ⟨some "erin", some true, false, false⟩ 0
        (some false)).1 = ⟨some "erin", some true, false, false⟩ ∧
      captureVerifyStep ⟨true, some [0]⟩ ⟨true, some ⟨false⟩⟩ =
        (CaptureStep.ready, some false)) :=
  ⟨by decide,
   C2_amended_mismatch_signout_in_login_form
     ⟨some "erin", some true, false, false⟩ LoginStep.facial "/jobs"
     (by decide)⟩

/-! ## Enrollment completion and the stale-lookup race -/

/-- Result shape of the `storeFacialData` server action. -/
structure StoreResult where
  success : Bool
  deriving DecidableEq, Repr

/-- Function `refreshFacialStatus` from `auth-context.tsx`: no-op without a user,
otherwise re-runs `hasFacialData` and stores
`success ? data || false : false` into `hasFacialSetup`. -/
def refreshFacialStatus (s : AuthState) (lookup : FacialResult) : AuthState :=
  if s.user.isNone then s
  else { s with hasFacialSetup := some (applyFacialResult lookup) }

/-- Handler `handleFacialComplete` of the setup-facial page
(`setup-facial/page.tsx`): with a user and a captured descriptor, a
successful `storeFacialData` first awaits `refreshFacialStatus` (the
in-memory flag update) and only then redirects to `/`; every other path
surfaces an error without redirecting.  Returns the refreshed auth state
and the redirect target. -/
def handleFacialComplete (s : AuthState) (faceDescriptor : Option (List Int))
    (store : StoreResult) (lookup : FacialResult) : AuthState × Option String :=
  if s.user.isNone || faceDescriptor.isNone then (s, none)
  else if store.success then (refreshFacialStatus s lookup, some "/")
  else (s, none)

/-- C7: after a successful enrollment store whose follow-up lookup reflects
the new record, `handleFacialComplete` updates `hasFacialSetup` in memory
before issuing its redirect, so the gate evaluated on the refreshed state
never yields `NEEDS_ENROLLMENT` again on a restricted route: it settles to
`NEEDS_VERIFICATION` while the session is unverified, and to `CLEAR` if the
session was already verified. -/
theorem C7_enrollment_refresh_before_redirect (s : AuthState) (uid : String)
    (d : List Int) (lookup : FacialResult) (route : String)
    (huser : s.user = some uid) (hlook : lookup.success = true)
    (hdata : lookup.data = some true)
    (hroute : isUnrestrictedRoute route = false) :
    (handleFacialComplete s (some d) ⟨true⟩ lookup).2 = some "/" ∧
    ((handleFacialComplete s (some d) ⟨true⟩ lookup).1).hasFacialSetup =
      some true ∧
    gateDecision (handleFacialComplete s (some d) ⟨true⟩ lookup).1 route ≠
      GateState.NEEDS_ENROLLMENT ∧
    gateDecision (handleFacialComplete s (some d) ⟨true⟩ lookup).1 route =
      (if s.loginScanFace then GateState.CLEAR
       else GateState.NEEDS_VERIFICATION) := by
  have happ : applyFacialResult lookup = true := by
    simp [applyFacialResult, hlook, hdata]
  cases hl : s.loginScanFace <;>
    simp [handleFacialComplete, refreshFacialStatus, huser, happ, gateDecision,
      hroute, needsFacialSetup, needsLoginScan, hl]

/-- Witness for C7: a fresh unverified session completing enrollment, gate
then demanding the login scan on `/jobs`. -/
theorem C7_enrollment_refresh_witness :
    (⟨some "frank", some false, false, false⟩ : AuthState).user = some "frank" ∧
    (⟨true, some true⟩ : FacialResult).success = true ∧
    (⟨true, some true⟩ : FacialResult).data = some true ∧
    isUnrestrictedRoute "/jobs" = false ∧
    ((handleFacialComplete ⟨some "frank", some false, false, false⟩ (some [0])
        ⟨true⟩ ⟨true, some true⟩).2 = some "/" ∧
      ((handleFacialComplete ⟨some "frank", some false, false, false⟩ (some [0])
        ⟨true⟩ ⟨true, some true⟩).1).hasFacialSetup = some true ∧
      gateDecision (handleFacialComplete ⟨some "frank", some false, false, false⟩
        (some [0]) ⟨true⟩ ⟨true, some true⟩).1 "/jobs" ≠
        GateState.NEEDS_ENROLLMENT ∧
      gateDecision (handleFacialComplete ⟨some "frank", some false, false, false⟩
        (some [0]) ⟨true⟩ ⟨true, some true⟩).1 "/jobs" =
        (if (⟨some "frank", some false, false, false⟩ : AuthState).loginScanFace
         then GateState.CLEAR else GateState.NEEDS_VERIFICATION)) :=
  ⟨rfl, rfl, rfl, by decide,
   C7_enrollment_refresh_before_redirect ⟨some "frank", some false, false, false⟩
     "frank" [0] ⟨true, some true⟩ "/jobs" rfl rfl rfl (by decide)⟩

/-- C8: the auth-subscription callback applies a `hasFacialData` response
without any generation or identity check, so a lookup started for a
previous user can land on a later user's state.  Concrete interleaving:
Alice (enrolled) signs in, signs out, Bob (not enrolled) signs in; Bob's
lookup resolves first (`data = false`), then Alice's stale lookup resolves
(`data = true`) and overwrites it.  The final state attributes Alice's
enrollment to Bob: the gate shows `NEEDS_VERIFICATION` for Bob on `/jobs`
where his own lookup result would give `NEEDS_ENROLLMENT`. -/
theorem C8_stale_lookup_applied_to_new_user :
    (runAuth initialAuthState
      [AuthAction.authEvent (some "alice"),
       AuthAction.authEvent none,
       AuthAction.authEvent (some "bob"),
       AuthAction.facialResponse "bob" ⟨true, some false⟩,
       AuthAction.facialResponse "alice" ⟨true, some true⟩]).user = some "bob" ∧
    (runAuth initialAuthState
      [AuthAction.authEvent (some "alice"),
       AuthAction.authEvent none,
       AuthAction.authEvent (some "bob"),
       AuthAction.facialResponse "bob" ⟨true, some false⟩,
       AuthAction.facialResponse "alice" ⟨true, some true⟩]).hasFacialSetup =
      some true ∧
    applyFacialResult ⟨true, some false⟩ = false ∧
    gateDecision (runAuth initialAuthState
      [AuthAction.authEvent (some "alice"),
       AuthAction.authEvent none,
       AuthAction.authEvent (some "bob"),
       AuthAction.facialResponse "bob" ⟨true, some false⟩,
       AuthAction.facialResponse "alice" ⟨true, some true⟩]) "/jobs" =
      GateState.NEEDS_VERIFICATION ∧
    gateDecision ⟨some "bob", some (applyFacialResult ⟨true, some false⟩),
      false, false⟩ "/jobs" = GateState.NEEDS_ENROLLMENT := by
  decide
